import Mathlib

/-!
# Verification of `gen_asset_model.py`

A shallow embedding of the mapping and resolution engine of the
DataRiver-to-AWS-SiteWise asset-model generator, together with theorems
settling the specification's claims about it.

The embedding covers:
* the `IotType` native telemetry type tags and the `type_mapping` table;
* the AWS SiteWise document model (`AwsModelProperty` variants,
  `AwsModelVariable`, `AwsModelMetricWindow`, `AwsModelAssertHierarchy`,
  `AwsAssetModel`) and its `to_dict` serialization into a JSON value model;
* the bounded-retry tag-group resolver `find_tag_group`;
* the mapping pass `map_tag`, `map_output_tag_group`, `map_thing_class`.

The registry is modelled as a function from tag-group id and attempt index
to a lookup outcome, reflecting that the external registry is populated
asynchronously and distinct lookup attempts may observe different states.
Python exceptions other than `InvalidArgumentError` are modelled by the
`Except` monad; the `InvalidArgumentError` (not-found) case is the
`notFound` outcome that the resolver retries on.
-/

/-- A model of JSON values, the target of the `to_dict` serializers.
Objects keep their fields in insertion order, mirroring Python dicts. -/
inductive JValue where
  | null : JValue
  | str : String → JValue
  | arr : List JValue → JValue
  | obj : List (String × JValue) → JValue
deriving Repr

/-- Serialize an optional string the way `json.dump` renders a Python
value that may be `None`: `null` when absent, a string otherwise. -/
def optStr : Option String → JValue
  | none => JValue.null
  | some s => JValue.str s

/-- Whether a JSON object has a field with the given key
(`false` on non-objects). -/
def JValue.hasKey : JValue → String → Bool
  | .obj fields, k => fields.any (fun kv => kv.1 == k)
  | _, _ => false

/-- Look up a field of a JSON object by key (first occurrence). -/
def JValue.getKey : JValue → String → Option JValue
  | .obj fields, k => (fields.find? (fun kv => kv.1 == k)).map (·.2)
  | _, _ => none

/-- The native telemetry type tags of the source system
(`adlinktech.datariver.IotType`).  The named constructors are the values
appearing in the source's `type_mapping` dict; `TYPE_OTHER n` stands for
any further (unknown or future) enum value, which the dict does not key. -/
inductive IotType where
  | TYPE_BYTE | TYPE_UINT16 | TYPE_UINT32 | TYPE_UINT64
  | TYPE_INT8 | TYPE_INT16 | TYPE_INT32 | TYPE_INT64
  | TYPE_FLOAT32 | TYPE_FLOAT64 | TYPE_BOOLEAN | TYPE_STRING | TYPE_CHAR
  | TYPE_BYTE_SEQ | TYPE_UINT16_SEQ | TYPE_UINT32_SEQ | TYPE_UINT64_SEQ
  | TYPE_INT8_SEQ | TYPE_INT16_SEQ | TYPE_INT32_SEQ | TYPE_INT64_SEQ
  | TYPE_FLOAT32_SEQ | TYPE_FLOAT64_SEQ | TYPE_BOOLEAN_SEQ
  | TYPE_STRING_SEQ | TYPE_CHAR_SEQ
  | TYPE_OTHER (n : Nat)
deriving DecidableEq, Repr

/-- The `type_mapping` dict of the source, read through
`type_mapping.get(kind, None)` as `map_tag` does: explicit `None` entries
and absent keys (`TYPE_OTHER`) both yield `none`. -/
def type_mapping : IotType → Option String
  | .TYPE_BYTE => some "INTEGER"
  | .TYPE_UINT16 => some "INTEGER"
  | .TYPE_UINT32 => some "INTEGER"
  | .TYPE_UINT64 => none
  | .TYPE_INT8 => some "INTEGER"
  | .TYPE_INT16 => some "INTEGER"
  | .TYPE_INT32 => some "INTEGER"
  | .TYPE_INT64 => some "INTEGER"
  | .TYPE_FLOAT32 => some "DOUBLE"
  | .TYPE_FLOAT64 => some "DOUBLE"
  | .TYPE_BOOLEAN => some "BOOLEAN"
  | .TYPE_STRING => some "STRING"
  | .TYPE_CHAR => none
  | .TYPE_BYTE_SEQ => none
  | .TYPE_UINT16_SEQ => none
  | .TYPE_UINT32_SEQ => none
  | .TYPE_UINT64_SEQ => none
  | .TYPE_INT8_SEQ => none
  | .TYPE_INT16_SEQ => none
  | .TYPE_INT32_SEQ => none
  | .TYPE_INT64_SEQ => none
  | .TYPE_FLOAT32_SEQ => none
  | .TYPE_FLOAT64_SEQ => none
  | .TYPE_BOOLEAN_SEQ => none
  | .TYPE_STRING_SEQ => none
  | .TYPE_CHAR_SEQ => none
  | .TYPE_OTHER _ => none

/-- `AwsModelVariable`: a named binding inside a transform/metric
expression; both ids are independently nullable. -/
structure AwsModelVariable where
  name : String
  property_id : Option String
  hierarchy_id : Option String
deriving DecidableEq, Repr

/-- `AwsModelVariable.to_dict`: `{'name': ...}` plus a `value` dict that
receives `propertyId` and `hierarchyId` only when the field is not `None`;
the `value` key is always set, possibly to the empty dict. -/
def AwsModelVariable.to_dict (v : AwsModelVariable) : JValue :=
  JValue.obj [("name", JValue.str v.name),
    ("value", JValue.obj
      ((match v.property_id with
        | some p => [("propertyId", JValue.str p)]
        | none => []) ++
       (match v.hierarchy_id with
        | some h => [("hierarchyId", JValue.str h)]
        | none => [])))]

/-- `AwsModelMetricWindow`: a tumbling aggregation window. -/
structure AwsModelMetricWindow where
  interval : String
deriving DecidableEq, Repr

/-- `AwsModelMetricWindow.to_dict`. -/
def AwsModelMetricWindow.to_dict (w : AwsModelMetricWindow) : JValue :=
  JValue.obj [("tumbling", JValue.obj [("interval", JValue.str w.interval)])]

/-- The property variants of the document model, one constructor per
source dataclass deriving `AwsModelProperty`.  The shared fields are
`name`, `data_type` (nullable: `map_tag` stores the `type_mapping` lookup
there, which may be `None`) and `unit` (nullable: its serialization is
conditional on `is not None`). -/
inductive AwsModelProperty where
  | AwsModelAttribute (name : String) (data_type : Option String)
      (unit : Option String) (default_value : String)
  | AwsModelMeasurement (name : String) (data_type : Option String)
      (unit : Option String)
  | AwsModelTransform (name : String) (data_type : Option String)
      (unit : Option String) (expression : String)
      (vars : List AwsModelVariable)
  | AwsModelMetric (name : String) (data_type : Option String)
      (unit : Option String) (expression : String)
      (vars : List AwsModelVariable) (window : AwsModelMetricWindow)
deriving DecidableEq, Repr

/-- The shared `name` field. -/
def AwsModelProperty.name : AwsModelProperty → String
  | .AwsModelAttribute n _ _ _ => n
  | .AwsModelMeasurement n _ _ => n
  | .AwsModelTransform n _ _ _ _ => n
  | .AwsModelMetric n _ _ _ _ _ => n

/-- The shared `data_type` field. -/
def AwsModelProperty.data_type : AwsModelProperty → Option String
  | .AwsModelAttribute _ d _ _ => d
  | .AwsModelMeasurement _ d _ => d
  | .AwsModelTransform _ d _ _ _ => d
  | .AwsModelMetric _ d _ _ _ _ => d

/-- The shared `unit` field. -/
def AwsModelProperty.unit : AwsModelProperty → Option String
  | .AwsModelAttribute _ _ u _ => u
  | .AwsModelMeasurement _ _ u => u
  | .AwsModelTransform _ _ u _ _ => u
  | .AwsModelMetric _ _ u _ _ _ => u

/-- The `_type_dict` override of each variant.  The `AwsModelMetric` case
mirrors the source exactly: the method body assigns the metric payload to
a local `result` and then falls off the end of the function, so the
call returns Python `None` — the constructed dict is discarded. -/
def AwsModelProperty.type_dict : AwsModelProperty → JValue
  | .AwsModelAttribute _ _ _ dv =>
      JValue.obj [("attribute", JValue.obj [("defaultValue", JValue.str dv)])]
  | .AwsModelMeasurement _ _ _ =>
      JValue.obj [("measurement", JValue.obj [])]
  | .AwsModelTransform _ _ _ expr vars =>
      JValue.obj [("transform", JValue.obj
        [("expression", JValue.str expr),
         ("variables", JValue.arr (vars.map AwsModelVariable.to_dict))])]
  | .AwsModelMetric _ _ _ expr vars window =>
      let result := JValue.obj [("metric", JValue.obj
        [("expression", JValue.str expr),
         ("variables", JValue.arr (vars.map AwsModelVariable.to_dict)),
         ("window", window.to_dict)])]
      -- the source's `_type_dict` has no `return` statement: `result` is
      -- dropped and the method returns None
      JValue.null

/-- `AwsModelProperty.to_dict`: `{'name', 'dataType', 'type'}` plus a
`unit` key exactly when `unit is not None`. -/
def AwsModelProperty.to_dict (p : AwsModelProperty) : JValue :=
  JValue.obj ([("name", JValue.str p.name),
    ("dataType", optStr p.data_type),
    ("type", p.type_dict)] ++
    (match p.unit with
     | some u => [("unit", JValue.str u)]
     | none => []))

/-- `AwsModelAssertHierarchy`: a parent-to-child asset-model reference. -/
structure AwsModelAssertHierarchy where
  name : String
  child_id : String
deriving DecidableEq, Repr

/-- `AwsModelAssertHierarchy.to_dict`. -/
def AwsModelAssertHierarchy.to_dict (h : AwsModelAssertHierarchy) : JValue :=
  JValue.obj [("name", JValue.str h.name),
    ("childAssetModelId", JValue.str h.child_id)]

/-- `AwsAssetModel`: the root document. -/
structure AwsAssetModel where
  name : String
  description : String
  properties : List AwsModelProperty
  hierarchies : List AwsModelAssertHierarchy
deriving DecidableEq, Repr

/-- `AwsAssetModel.to_dict` (the external format's own spelling
`assetModelHiearchies` is preserved verbatim). -/
def AwsAssetModel.to_dict (m : AwsAssetModel) : JValue :=
  JValue.obj [("assetModelName", JValue.str m.name),
    ("assetModelDescription", JValue.str m.description),
    ("assetModelProperties",
      JValue.arr (m.properties.map AwsModelProperty.to_dict)),
    ("assetModelHiearchies",
      JValue.arr (m.hierarchies.map AwsModelAssertHierarchy.to_dict))]

/-- A telemetry tag of a tag-group definition: the fields `map_tag`
reads (`tag.name`, `tag.kind`, `tag.unit`). -/
structure Tag where
  name : String
  kind : IotType
  unit : Option String
deriving DecidableEq, Repr

/-- The top-level type of a tag-group definition, exposing its ordered
tag list. -/
structure TopLevelType where
  tags : List Tag
deriving DecidableEq, Repr

/-- A resolved tag-group definition as `map_output_tag_group` uses it. -/
structure TagGroupDefinition where
  name : String
  id : String
  top_level_type : TopLevelType
deriving DecidableEq, Repr

/-- The outcome of one `tgr.find_tag_group(name)` call on the external
registry: a definition, the `InvalidArgumentError` raised while the tag
group is not yet discovered, or any other exception (modelled by a
message string), which `find_tag_group` does not catch. -/
inductive LookupOutcome where
  | found : TagGroupDefinition → LookupOutcome
  | notFound : LookupOutcome
  | hardError : String → LookupOutcome
deriving DecidableEq, Repr

/-- One declared output tag group of a thing class: its name (used as
the property-name namespace) and the registry reference
`tg.output_tag_group`. -/
structure OutputTagGroup where
  name : String
  output_tag_group : String
deriving DecidableEq, Repr

/-- A thing class: the fields `map_thing_class` and `main` read. -/
structure ThingClass where
  name : String
  description : String
  context : String
  output_tag_groups : List OutputTagGroup
deriving DecidableEq, Repr

/-- The tag-group registry, modelled extensionally: `tgr id i` is the
outcome of the `i`-th lookup attempt for id `id`.  Attempts are indexed
because the registry is populated asynchronously, so successive attempts
of the retry loop may observe different states. -/
def TagGroupRegistry : Type := String → Nat → LookupOutcome

/-- The retry loop body of `find_tag_group`: starting at attempt index
`i` with `fuel` attempts remaining, return `(True, definition)` on the
first successful lookup, skip (and, in the source, sleep 100 ms) on
`InvalidArgumentError`, re-raise any other exception, and return
`(False, None)` when the attempts are exhausted. -/
def find_loop (lookup : Nat → LookupOutcome) :
    Nat → Nat → Except String (Bool × Option TagGroupDefinition)
  | _, 0 => .ok (false, none)
  | i, fuel + 1 =>
    match lookup i with
    | .found d => .ok (true, some d)
    | .notFound => find_loop lookup (i + 1) fuel
    | .hardError e => .error e

/-- `find_tag_group(tgr, tag_group_name)`: up to 50 lookup attempts
(`for i in range(0, 50)`), retrying only on `InvalidArgumentError`. -/
def find_tag_group (tgr : TagGroupRegistry) (tag_group_name : String) :
    Except String (Bool × Option TagGroupDefinition) :=
  find_loop (tgr tag_group_name) 0 50

/-- `map_tag(prefix, tag)`: always constructs a Measurement named
`prefix + tag.name` whose data type is `type_mapping.get(tag.kind, None)`
and whose unit is `tag.unit` — also when the lookup yields `None`. -/
def map_tag (pfx : String) (tag : Tag) : AwsModelProperty :=
  .AwsModelMeasurement (pfx ++ tag.name) (type_mapping tag.kind) tag.unit

/-- `map_output_tag_group(tgr, tg)`: resolve the referenced tag group;
on success map every tag of its top-level type through `map_tag` with
prefix `tg.name + "_"`; on resolution failure contribute no properties.
The source's guard `if aws is not None` is always true — `map_tag`
unconditionally returns a constructed `AwsModelMeasurement` — so the
mapped list is kept whole. -/
def map_output_tag_group (tgr : TagGroupRegistry) (tg : OutputTagGroup) :
    Except String (List AwsModelProperty) := do
  let name := tg.name
  let tg_id := tg.output_tag_group
  let (res, tg_definition) ← find_tag_group tgr tg_id
  if res then
    match tg_definition with
    | some d => pure (d.top_level_type.tags.map (map_tag (name ++ "_")))
    | none => pure []
  else
    pure []

/-- The two fixed `AwsModelAttribute` properties `map_thing_class` seeds
the property list with. -/
def fixed_attributes : List AwsModelProperty :=
  [.AwsModelAttribute "contextId" (some "STRING") (some "") "",
   .AwsModelAttribute "description" (some "STRING") (some "") ""]

/-- `map_thing_class(tc, tgr)`: the two fixed attributes, then every
output tag group's mapped properties in declaration order (the source's
`if len(mapped_outputs) > 0` guard is kept verbatim), with the thing's
name and description and an empty hierarchy list. -/
def map_thing_class (tc : ThingClass) (tgr : TagGroupRegistry) :
    Except String AwsAssetModel := do
  let name := tc.name
  let description := tc.description
  let hierarchies : List AwsModelAssertHierarchy := []
  let mapped_outputs ← tc.output_tag_groups.mapM (map_output_tag_group tgr)
  let properties :=
    if mapped_outputs.length > 0 then
      fixed_attributes ++ mapped_outputs.flatten
    else
      fixed_attributes
  pure ⟨name, description, properties, hierarchies⟩

/-- The retry loop reads only the attempts in its window: two lookup
sequences agreeing on attempts `i, …, i+fuel-1` drive it identically. -/
theorem find_loop_congr (lookup lookup' : Nat → LookupOutcome) :
    ∀ fuel i, (∀ j, i ≤ j → j < i + fuel → lookup j = lookup' j) →
    find_loop lookup i fuel = find_loop lookup' i fuel := by
  intro fuel
  induction fuel with
  | zero => intro i _; rfl
  | succ fuel ih =>
    intro i h
    have hi : lookup i = lookup' i := h i le_rfl (by omega)
    simp only [find_loop, hi]
    cases lookup' i with
    | found d => rfl
    | notFound => exact ih (i + 1) (fun j h1 h2 => h j (by omega) (by omega))
    | hardError e => rfl

/-- If attempts `i, …, i+k-1` are not-found and attempt `i+k` succeeds
within the budget, the loop returns that definition. -/
theorem find_loop_success (lookup : Nat → LookupOutcome) (d : TagGroupDefinition) :
    ∀ fuel i k, k < fuel → (∀ j, i ≤ j → j < i + k → lookup j = .notFound) →
    lookup (i + k) = .found d →
    find_loop lookup i fuel = .ok (true, some d) := by
  intro fuel
  induction fuel with
  | zero => intro i k hk; omega
  | succ fuel ih =>
    intro i k hk hnf hfound
    cases k with
    | zero =>
      simp only [Nat.add_zero] at hfound
      simp [find_loop, hfound]
    | succ k =>
      have hi : lookup i = .notFound := hnf i le_rfl (by omega)
      simp only [find_loop, hi]
      exact ih (i + 1) k (by omega)
        (fun j h1 h2 => hnf j (by omega) (by omega))
        (by have : i + 1 + k = i + (k + 1) := by omega
            rw [this]; exact hfound)

/-- If every attempt in the window is not-found, the loop exhausts its
budget and reports `(False, None)`. -/
theorem find_loop_all_notFound (lookup : Nat → LookupOutcome) :
    ∀ fuel i, (∀ j, i ≤ j → j < i + fuel → lookup j = .notFound) →
    find_loop lookup i fuel = .ok (false, none) := by
  intro fuel
  induction fuel with
  | zero => intro i _; rfl
  | succ fuel ih =>
    intro i h
    have hi : lookup i = .notFound := h i le_rfl (by omega)
    simp only [find_loop, hi]
    exact ih (i + 1) (fun j h1 h2 => h j (by omega) (by omega))

/-- If attempts `i, …, i+k-1` are not-found and attempt `i+k` raises a
non-`InvalidArgumentError` failure within the budget, the loop re-raises
it at that attempt. -/
theorem find_loop_hardError (lookup : Nat → LookupOutcome) (e : String) :
    ∀ fuel i k, k < fuel → (∀ j, i ≤ j → j < i + k → lookup j = .notFound) →
    lookup (i + k) = .hardError e →
    find_loop lookup i fuel = .error e := by
  intro fuel
  induction fuel with
  | zero => intro i k hk; omega
  | succ fuel ih =>
    intro i k hk hnf herr
    cases k with
    | zero =>
      simp only [Nat.add_zero] at herr
      simp [find_loop, herr]
    | succ k =>
      have hi : lookup i = .notFound := hnf i le_rfl (by omega)
      simp only [find_loop, hi]
      exact ih (i + 1) k (by omega)
        (fun j h1 h2 => hnf j (by omega) (by omega))
        (by have : i + 1 + k = i + (k + 1) := by omega
            rw [this]; exact herr)

/-- C1: for every native telemetry type, the `type_mapping` lookup used
by `map_tag` returns exactly the tabulated output: BYTE, INT8, UINT16,
UINT32, INT16, INT32 and INT64 map to INTEGER; FLOAT32 and FLOAT64 map
to DOUBLE; BOOLEAN to BOOLEAN; STRING to STRING; UINT64, CHAR, every
sequence variant and any unknown value map to `None`. -/
theorem c1_type_mapping_table :
    type_mapping .TYPE_BYTE = some "INTEGER" ∧
    type_mapping .TYPE_INT8 = some "INTEGER" ∧
    type_mapping .TYPE_UINT16 = some "INTEGER" ∧
    type_mapping .TYPE_UINT32 = some "INTEGER" ∧
    type_mapping .TYPE_INT16 = some "INTEGER" ∧
    type_mapping .TYPE_INT32 = some "INTEGER" ∧
    type_mapping .TYPE_INT64 = some "INTEGER" ∧
    type_mapping .TYPE_FLOAT32 = some "DOUBLE" ∧
    type_mapping .TYPE_FLOAT64 = some "DOUBLE" ∧
    type_mapping .TYPE_BOOLEAN = some "BOOLEAN" ∧
    type_mapping .TYPE_STRING = some "STRING" ∧
    type_mapping .TYPE_UINT64 = none ∧
    type_mapping .TYPE_CHAR = none ∧
    type_mapping .TYPE_BYTE_SEQ = none ∧
    type_mapping .TYPE_UINT16_SEQ = none ∧
    type_mapping .TYPE_UINT32_SEQ = none ∧
    type_mapping .TYPE_UINT64_SEQ = none ∧
    type_mapping .TYPE_INT8_SEQ = none ∧
    type_mapping .TYPE_INT16_SEQ = none ∧
    type_mapping .TYPE_INT32_SEQ = none ∧
    type_mapping .TYPE_INT64_SEQ = none ∧
    type_mapping .TYPE_FLOAT32_SEQ = none ∧
    type_mapping .TYPE_FLOAT64_SEQ = none ∧
    type_mapping .TYPE_BOOLEAN_SEQ = none ∧
    type_mapping .TYPE_STRING_SEQ = none ∧
    type_mapping .TYPE_CHAR_SEQ = none ∧
    (∀ n : Nat, type_mapping (.TYPE_OTHER n) = none) :=
  ⟨rfl, rfl, rfl, rfl, rfl, rfl, rfl, rfl, rfl, rfl, rfl, rfl, rfl, rfl,
   rfl, rfl, rfl, rfl, rfl, rfl, rfl, rfl, rfl, rfl, rfl, rfl,
   fun _ => rfl⟩

/-- C3: for every prefix and tag, `map_tag` returns a Measurement whose
name is the prefix concatenated with the tag's bare name, whose data
type is the projected output type, and whose unit is the tag's unit —
also when the projection is `None`. -/
theorem c3_map_tag_always_measurement :
    ∀ (pfx : String) (tag : Tag),
      map_tag pfx tag =
        .AwsModelMeasurement (pfx ++ tag.name) (type_mapping tag.kind) tag.unit :=
  fun _ _ => rfl

/-- C5: `find_tag_group` performs at most 50 lookup attempts (its result
depends only on attempts 0–49); a success at some attempt `k < 50`
preceded by not-found attempts returns `(True, definition)` and reads no
attempt beyond `k`; 50 consecutive not-found attempts return
`(False, None)` without an error, and `map_output_tag_group` then
contributes zero properties for that tag group. -/
theorem c5_find_tag_group_bounded_retry :
    (∀ (tgr tgr' : TagGroupRegistry) (gid : String),
       (∀ i, i < 50 → tgr gid i = tgr' gid i) →
       find_tag_group tgr gid = find_tag_group tgr' gid) ∧
    (∀ (tgr : TagGroupRegistry) (gid : String) (k : Nat) (d : TagGroupDefinition),
       k < 50 → (∀ j, j < k → tgr gid j = .notFound) → tgr gid k = .found d →
       find_tag_group tgr gid = .ok (true, some d) ∧
       ∀ tgr' : TagGroupRegistry, (∀ j, j ≤ k → tgr' gid j = tgr gid j) →
         find_tag_group tgr' gid = .ok (true, some d)) ∧
    (∀ (tgr : TagGroupRegistry) (gid : String),
       (∀ i, i < 50 → tgr gid i = .notFound) →
       find_tag_group tgr gid = .ok (false, none) ∧
       ∀ tg : OutputTagGroup, tg.output_tag_group = gid →
         map_output_tag_group tgr tg = .ok []) := by
  refine ⟨?_, ?_, ?_⟩
  · intro tgr tgr' gid h
    exact find_loop_congr (tgr gid) (tgr' gid) 50 0
      (fun j _ h2 => h j (by omega))
  · intro tgr gid k d hk hnf hfound
    constructor
    · exact find_loop_success (tgr gid) d 50 0 k hk
        (fun j _ h2 => hnf j (by omega)) (by simpa using hfound)
    · intro tgr' h
      exact find_loop_success (tgr' gid) d 50 0 k hk
        (fun j _ h2 => (h j (by omega)).trans (hnf j (by omega)))
        (by simpa using (h k le_rfl).trans hfound)
  · intro tgr gid h
    have hfind : find_tag_group tgr gid = .ok (false, none) :=
      find_loop_all_notFound (tgr gid) 50 0 (fun j _ h2 => h j (by omega))
    refine ⟨hfind, fun tg htg => ?_⟩
    simp [map_output_tag_group, htg, hfind, bind, Except.bind, pure, Except.pure]

/-- A registry whose sole tag group `"g"` becomes visible on the 50th
lookup attempt (index 49): the first 49 attempts raise the transient
not-found condition. -/
def lateRegistry : TagGroupRegistry := fun gid i =>
  if gid = "g" ∧ 49 ≤ i then .found ⟨"g", "g", ⟨[]⟩⟩ else .notFound

/-- A registry that never has any tag group: every attempt raises the
transient not-found condition. -/
def emptyRegistry : TagGroupRegistry := fun _ _ => .notFound

/-- C5 witness: `find_tag_group` succeeds on a registry that becomes
visible only at the 50th attempt, returns `(False, None)` on a registry
that never resolves, and the caller then maps that tag group to zero
properties. -/
theorem c5_witness :
    find_tag_group lateRegistry "g" = .ok (true, some ⟨"g", "g", ⟨[]⟩⟩) ∧
    find_tag_group emptyRegistry "g" = .ok (false, none) ∧
    map_output_tag_group emptyRegistry ⟨"grp", "g"⟩ = .ok [] := by
  refine ⟨?_, ?_, ?_⟩
  · exact (c5_find_tag_group_bounded_retry.2.1 lateRegistry "g" 49 ⟨"g", "g", ⟨[]⟩⟩
      (by omega) (fun j hj => by simp [lateRegistry]; omega)
      (by simp [lateRegistry])).1
  · exact (c5_find_tag_group_bounded_retry.2.2 emptyRegistry "g"
      (fun i _ => rfl)).1
  · exact (c5_find_tag_group_bounded_retry.2.2 emptyRegistry "g"
      (fun i _ => rfl)).2 ⟨"grp", "g"⟩ rfl

/-- C6: a lookup failure that is not the not-found condition is not
retried: if attempts before `k` are not-found and attempt `k < 50`
raises a hard error, `find_tag_group` re-raises exactly that error, and
it propagates through `map_output_tag_group` to the mapping pass. -/
theorem c6_hard_error_propagates :
    ∀ (tgr : TagGroupRegistry) (gid : String) (k : Nat) (e : String),
      k < 50 → (∀ j, j < k → tgr gid j = .notFound) →
      tgr gid k = .hardError e →
      find_tag_group tgr gid = .error e ∧
      ∀ tg : OutputTagGroup, tg.output_tag_group = gid →
        map_output_tag_group tgr tg = .error e := by
  intro tgr gid k e hk hnf herr
  have hfind : find_tag_group tgr gid = .error e :=
    find_loop_hardError (tgr gid) e 50 0 k hk
      (fun j _ h2 => hnf j (by omega)) (by simpa using herr)
  refine ⟨hfind, fun tg htg => ?_⟩
  simp [map_output_tag_group, htg, hfind, bind, Except.bind, pure, Except.pure]

/-- A registry whose very first lookup attempt raises a hard
(non-not-found) failure. -/
def brokenRegistry : TagGroupRegistry := fun _ _ => .hardError "boom"

/-- C6 witness: on a registry whose first attempt hard-fails, the
resolver and the caller both propagate the error. -/
theorem c6_witness :
    find_tag_group brokenRegistry "g" = .error "boom" ∧
    map_output_tag_group brokenRegistry ⟨"grp", "g"⟩ = .error "boom" := by
  have h := c6_hard_error_propagates brokenRegistry "g" 0 "boom"
    (by omega) (fun j hj => absurd hj (by omega)) rfl
  exact ⟨h.1, h.2 ⟨"grp", "g"⟩ rfl⟩

/-- C4: the document built by `map_thing_class` carries the thing's name
and description, an empty hierarchy list, and a property list that is
the two fixed attributes (`contextId` then `description`, STRING type,
empty unit and default) followed by the per-tag-group property lists in
declaration order; a tag group that resolves to a definition contributes
exactly its tags, in order, mapped with prefix `group name + "_"`. -/
theorem c4_map_thing_class_document_shape :
    (∀ (tc : ThingClass) (tgr : TagGroupRegistry)
       (ps : List (List AwsModelProperty)),
       tc.output_tag_groups.mapM (map_output_tag_group tgr) = .ok ps →
       map_thing_class tc tgr =
         .ok ⟨tc.name, tc.description, fixed_attributes ++ ps.flatten, []⟩) ∧
    (∀ (tgr : TagGroupRegistry) (tg : OutputTagGroup) (d : TagGroupDefinition),
       find_tag_group tgr tg.output_tag_group = .ok (true, some d) →
       map_output_tag_group tgr tg =
         .ok (d.top_level_type.tags.map (map_tag (tg.name ++ "_")))) := by
  constructor
  · intro tc tgr ps h
    simp only [map_thing_class, h, bind, Except.bind, pure, Except.pure]
    cases ps with
    | nil => simp
    | cons a l => simp
  · intro tgr tg d h
    simp [map_output_tag_group, h, bind, Except.bind, pure, Except.pure]

/-- A registry on which every lookup attempt immediately finds the same
tag-group definition, holding one INT32 tag. -/
def int32Registry : TagGroupRegistry :=
  fun _ _ => .found ⟨"A", "A", ⟨[⟨"x", .TYPE_INT32, some "u"⟩]⟩⟩

/-- A thing class declaring one output tag group `A`. -/
def int32Thing : ThingClass := ⟨"T", "D", "ctx", [⟨"A", "A"⟩]⟩

/-- C4 witness: the document shape theorem applied to a concrete thing
with one immediately-resolving tag group. -/
theorem c4_witness :
    map_thing_class int32Thing int32Registry =
      .ok ⟨"T", "D",
        fixed_attributes ++ [map_tag "A_" ⟨"x", .TYPE_INT32, some "u"⟩], []⟩ ∧
    map_output_tag_group int32Registry ⟨"A", "A"⟩ =
      .ok [map_tag "A_" ⟨"x", .TYPE_INT32, some "u"⟩] :=
  ⟨c4_map_thing_class_document_shape.1 int32Thing int32Registry
      [[map_tag "A_" ⟨"x", .TYPE_INT32, some "u"⟩]] rfl,
   c4_map_thing_class_document_shape.2 int32Registry ⟨"A", "A"⟩
      ⟨"A", "A", ⟨[⟨"x", .TYPE_INT32, some "u"⟩]⟩⟩ rfl⟩

/-- The `"Pump1"` scenario registry: the `"temperature"` tag group is
immediately visible and holds the single tag
`{name: "value", native_type: FLOAT32, unit: "C"}`. -/
def pumpRegistry : TagGroupRegistry :=
  fun _ _ => .found ⟨"temperature", "temperature",
    ⟨[⟨"value", .TYPE_FLOAT32, some "C"⟩]⟩⟩

/-- The `"Pump1"` thing class with its single output tag group. -/
def pumpThing : ThingClass :=
  ⟨"Pump1", "A pump", "ctx", [⟨"temperature", "temperature"⟩]⟩

/-- The asset model the mapping pass produces for `"Pump1"`. -/
def pumpModel : AwsAssetModel :=
  ⟨"Pump1", "A pump",
   fixed_attributes ++
     [.AwsModelMeasurement "temperature_value" (some "DOUBLE") (some "C")],
   []⟩

/-- C7: the end-to-end `"Pump1"` scenario — mapping followed by
serialization yields exactly the expected document, with the two fixed
attributes, the `temperature_value` DOUBLE measurement with unit `C`,
and the empty (misspelled) `assetModelHiearchies` array. -/
theorem c7_pump1_end_to_end :
    map_thing_class pumpThing pumpRegistry = .ok pumpModel ∧
    pumpModel.to_dict = JValue.obj
      [("assetModelName", JValue.str "Pump1"),
       ("assetModelDescription", JValue.str "A pump"),
       ("assetModelProperties", JValue.arr
         [JValue.obj [("name", JValue.str "contextId"),
            ("dataType", JValue.str "STRING"),
            ("type", JValue.obj [("attribute",
              JValue.obj [("defaultValue", JValue.str "")])]),
            ("unit", JValue.str "")],
          JValue.obj [("name", JValue.str "description"),
            ("dataType", JValue.str "STRING"),
            ("type", JValue.obj [("attribute",
              JValue.obj [("defaultValue", JValue.str "")])]),
            ("unit", JValue.str "")],
          JValue.obj [("name", JValue.str "temperature_value"),
            ("dataType", JValue.str "DOUBLE"),
            ("type", JValue.obj [("measurement", JValue.obj [])]),
            ("unit", JValue.str "C")]]),
       ("assetModelHiearchies", JValue.arr [])] :=
  ⟨rfl, rfl⟩

/-- A registry whose tag group resolves immediately to a definition
holding one tag of the unsupported CHAR native type. -/
def charRegistry : TagGroupRegistry :=
  fun _ _ => .found ⟨"g", "g", ⟨[⟨"x", .TYPE_CHAR, none⟩]⟩⟩

/-- A thing class declaring the single tag group `g` of `charRegistry`. -/
def charThing : ThingClass := ⟨"T", "D", "ctx", [⟨"g", "g"⟩]⟩

/-- C2 counterexample: a tag whose native type (CHAR) projects to `None`
is NOT excluded — the document built for a thing whose sole tag group
holds only that tag does contain a property named
`"g_x" = "{prefix}{tag.name}"`, contradicting the claim that no such
property appears. -/
theorem c2_counterexample :
    type_mapping .TYPE_CHAR = none ∧
    map_thing_class charThing charRegistry =
      .ok ⟨"T", "D",
        [.AwsModelAttribute "contextId" (some "STRING") (some "") "",
         .AwsModelAttribute "description" (some "STRING") (some "") "",
         .AwsModelMeasurement "g_x" none none], []⟩ ∧
    (AwsModelProperty.AwsModelMeasurement "g_x" none none).name =
      ("g" ++ "_") ++ "x" :=
  ⟨rfl, rfl, rfl⟩

/-- C2 (amended): for every tag whose native type projects to `None`,
the mapping pass still includes it — whenever the tag group resolves,
the property list contains a Measurement named `"{prefix}{tag.name}"`
with absent (`None`) data type; `map_tag` never filters. -/
theorem c2_amended_unsupported_tags_kept :
    ∀ (tgr : TagGroupRegistry) (tg : OutputTagGroup)
      (d : TagGroupDefinition) (tag : Tag),
      find_tag_group tgr tg.output_tag_group = .ok (true, some d) →
      tag ∈ d.top_level_type.tags →
      type_mapping tag.kind = none →
      ∃ props, map_output_tag_group tgr tg = .ok props ∧
        AwsModelProperty.AwsModelMeasurement
          ((tg.name ++ "_") ++ tag.name) none tag.unit ∈ props := by
  intro tgr tg d tag hfind hmem hnone
  refine ⟨d.top_level_type.tags.map (map_tag (tg.name ++ "_")), ?_, ?_⟩
  · simp [map_output_tag_group, hfind, bind, Except.bind, pure, Except.pure]
  · exact List.mem_map.mpr ⟨tag, hmem, by simp [map_tag, hnone]⟩

/-- C2 witness: the amended theorem applied to the CHAR-tag registry. -/
theorem c2_amended_witness :
    ∃ props, map_output_tag_group charRegistry ⟨"g", "g"⟩ = .ok props ∧
      AwsModelProperty.AwsModelMeasurement (("g" ++ "_") ++ "x") none none
        ∈ props :=
  c2_amended_unsupported_tags_kept charRegistry ⟨"g", "g"⟩
    ⟨"g", "g", ⟨[⟨"x", .TYPE_CHAR, none⟩]⟩⟩ ⟨"x", .TYPE_CHAR, none⟩
    rfl (by simp) rfl

/-- A concrete Metric property with one variable binding and a tumbling
window, as §3 describes the variant. -/
def sampleMetric : AwsModelProperty :=
  .AwsModelMetric "avg" (some "DOUBLE") none "avg(t)"
    [⟨"t", some "p1", none⟩] ⟨"1h"⟩

/-- C8: the claim fails on the source — `AwsModelMetric._type_dict`
builds its payload into a local but has no `return`, so serializing a
Metric yields `type: null`, never a single-key object keyed `metric`
(the other three variants do serialize their variant-tagged payload). -/
theorem c8_metric_type_serializes_null :
    sampleMetric.to_dict =
      JValue.obj [("name", JValue.str "avg"),
        ("dataType", JValue.str "DOUBLE"), ("type", JValue.null)] ∧
    sampleMetric.to_dict.getKey "type" = some JValue.null :=
  ⟨rfl, rfl⟩

/-- C9: a property's serialization carries a `unit` key exactly when its
unit is non-null; a variable's serialized `value` object carries
`propertyId` (resp. `hierarchyId`) exactly when the corresponding field
is non-null, and a variable with only `property_id` set serializes its
value with only `propertyId` present. -/
theorem c9_unit_and_value_subfield_omission :
    (∀ p : AwsModelProperty, p.to_dict.hasKey "unit" = p.unit.isSome) ∧
    (∀ v : AwsModelVariable, ∃ fields,
       v.to_dict.getKey "value" = some (JValue.obj fields) ∧
       (JValue.obj fields).hasKey "propertyId" = v.property_id.isSome ∧
       (JValue.obj fields).hasKey "hierarchyId" = v.hierarchy_id.isSome) ∧
    (∀ n pid : String,
       (AwsModelVariable.mk n (some pid) none).to_dict =
         JValue.obj [("name", JValue.str n),
           ("value", JValue.obj [("propertyId", JValue.str pid)])]) := by
  refine ⟨?_, ?_, fun n pid => rfl⟩
  · intro p
    rcases p with ⟨n, d, u, dv⟩ | ⟨n, d, u⟩ | ⟨n, d, u, e, vs⟩ | ⟨n, d, u, e, vs, w⟩ <;>
      rcases u with _ | u <;> rfl
  · intro v
    rcases v with ⟨n, pid, hid⟩
    rcases pid with _ | p <;> rcases hid with _ | h <;> exact ⟨_, rfl, rfl, rfl⟩

/-- C10: a variable's serialization always carries a `value` key; when
both `property_id` and `hierarchy_id` are null, the value is the empty
object rather than the key being omitted. -/
theorem c10_value_key_always_present :
    (∀ v : AwsModelVariable, v.to_dict.hasKey "value" = true) ∧
    (∀ n : String, (AwsModelVariable.mk n none none).to_dict =
       JValue.obj [("name", JValue.str n), ("value", JValue.obj [])]) :=
  ⟨fun _ => rfl, fun _ => rfl⟩
